import Mathlib

/-!
Verification of the dgi-toolkit screening pipeline.

The development shallowly embeds the core modules of the repository:
`dgi/models/company.py` (the validated company record), `dgi/scoring.py`
(the default composite scoring strategy), `dgi/screener.py` (the screener
orchestration, its fallback scoring and projection to a tabular universe),
`dgi/filtering.py` (the default threshold filter), `dgi/validation.py`
(batch row validation) and `dgi/portfolio.py` (top-N portfolio
construction with equal or score-proportional weighting).

Python floats are modelled as rationals (`ℚ`); pandas `DataFrame`s are
modelled as a list of column names together with a list of rows, each row
an association list from column names to cell values; raised exceptions
are modelled with `Except String`.
-/

namespace DGI

/-- A cell of a table: either a string or a numeric value.  Python cells
of interest in the pipeline are strings (symbol, name, sector, industry)
or floats (the four fundamentals, the score and the weight). -/
inductive Value where
  | str : String → Value
  | num : ℚ → Value
deriving DecidableEq, Repr

/-- A table row: an association list from column names to cell values,
modelling one pandas row viewed as a dict. -/
abbrev Row := List (String × Value)

/-- Numeric cell access `row[col]`: the rational stored at `col`, or `0`
when the column is missing or non-numeric (the claims below only ever
evaluate it under hypotheses that make the cell a present numeral). -/
def getNum (r : Row) (c : String) : ℚ :=
  match r.lookup c with
  | some (Value.num q) => q
  | _ => 0

/-- Raw cell access `row[col]` with a junk default for a missing key. -/
def getVal (r : Row) (c : String) : Value :=
  (r.lookup c).getD (Value.num 0)

/-- A pandas `DataFrame`: its ordered column labels and its rows. -/
structure DataFrame where
  cols : List String
  rows : List Row
deriving DecidableEq, Repr

/-- The row predicate `∃ q, row[c]` is the numeral `q`. -/
def HasNum (r : Row) (c : String) : Prop :=
  ∃ q : ℚ, r.lookup c = some (Value.num q)

instance (r : Row) (c : String) : Decidable (HasNum r c) :=
  match h : r.lookup c with
  | some (Value.num q) => .isTrue ⟨q, h⟩
  | some (Value.str s) => .isFalse (by rintro ⟨q, hq⟩; rw [h] at hq; cases hq)
  | none => .isFalse (by rintro ⟨q, hq⟩; rw [h] at hq; cases hq)

/-! ## The validated company record (`dgi/models/company.py`)

`CompanyData` is a pydantic model with four string fields and four float
fields; `payout_ratio` is aliased `payout` and `dividend_growth_5y` is
aliased `dividend_cagr`. -/

/-- `CompanyData` from `dgi/models/company.py`: the validated company
record.  Field bounds live in `CompanyData.IsValid`. -/
structure CompanyData where
  symbol : String
  name : String
  sector : String
  industry : String
  dividend_yield : ℚ
  payout_ratio : ℚ
  dividend_growth_5y : ℚ
  fcf_yield : ℚ
deriving DecidableEq, Repr

/-- Read-time alias `payout` for `payout_ratio`. -/
def CompanyData.payout (c : CompanyData) : ℚ := c.payout_ratio

/-- Read-time alias `dividend_cagr` for `dividend_growth_5y`. -/
def CompanyData.dividend_cagr (c : CompanyData) : ℚ := c.dividend_growth_5y

/-- The pydantic field constraints of `CompanyData`: symbol length in
`[1,10]`, the other strings non-empty, `dividend_yield ∈ [0,100]`,
`payout_ratio ∈ [0,200]`, `dividend_growth_5y ∈ [-100,100]`,
`fcf_yield ∈ [-100,100]`. -/
def CompanyData.IsValid (c : CompanyData) : Prop :=
  1 ≤ c.symbol.length ∧ c.symbol.length ≤ 10 ∧
  1 ≤ c.name.length ∧ 1 ≤ c.sector.length ∧ 1 ≤ c.industry.length ∧
  0 ≤ c.dividend_yield ∧ c.dividend_yield ≤ 100 ∧
  0 ≤ c.payout_ratio ∧ c.payout_ratio ≤ 200 ∧
  -100 ≤ c.dividend_growth_5y ∧ c.dividend_growth_5y ≤ 100 ∧
  -100 ≤ c.fcf_yield ∧ c.fcf_yield ≤ 100

instance (c : CompanyData) : Decidable c.IsValid := by
  unfold CompanyData.IsValid; infer_instance

/-! ## Scoring (`dgi/scoring.py` and `dgi/screener.py`) -/

/-- `DefaultScoring.score` from `dgi/scoring.py`:

```python
cagr_norm = min(max(row.dividend_cagr / 20.0, 0.0), 1.0)
fcf_norm = min(max(row.fcf_yield / 20.0, 0.0), 1.0)
payout_norm = min(max(row.payout / 100.0, 0.0), 1.0)
composite = cagr_norm + fcf_norm - payout_norm
composite = composite / 3.0
result = max(0.0, min(composite, 1.0))
```
-/
def DefaultScoring.score (row : CompanyData) : ℚ :=
  let cagr_norm := min (max (row.dividend_cagr / 20) 0) 1
  let fcf_norm := min (max (row.fcf_yield / 20) 0) 1
  let payout_norm := min (max (row.payout / 100) 0) 1
  let composite := cagr_norm + fcf_norm - payout_norm
  let composite := composite / 3
  max 0 (min composite 1)

/-- `Screener.default_score` from `dgi/screener.py`, the scoring used by
`add_scores` when no scoring strategy is configured:

```python
yield_score = float(company.dividend_yield) * 1.0
growth_score = float(company.dividend_growth_5y) * 0.5
payout_penalty = max(0, float(company.payout_ratio) - 60.0) * -0.1
return float(yield_score + growth_score + payout_penalty)
```
-/
def Screener.default_score (company : CompanyData) : ℚ :=
  let yield_score := company.dividend_yield * 1
  let growth_score := company.dividend_growth_5y * (1 / 2)
  let payout_penalty := max 0 (company.payout_ratio - 60) * (-(1 / 10))
  yield_score + growth_score + payout_penalty

/-- The module-level convenience function `score` at the bottom of
`dgi/screener.py`: it delegates to `_default_screener.default_score`. -/
def score (company : CompanyData) : ℚ :=
  Screener.default_score company

/-! ## Filtering (`dgi/filtering.py`)

`DefaultFilter.filter` evaluates three boolean column masks and selects
the rows where their conjunction holds:

```python
return df[
    (df["dividend_yield"] >= min_yield)
    & (df["payout"] <= max_payout)
    & (df["dividend_cagr"] >= min_cagr)
]
```
-/

/-- Boolean-mask selection `df[mask]`: keep the rows whose mask bit is
`true` (pandas aligns the mask positionally with the rows). -/
def applyMask : List Row → List Bool → List Row
  | r :: rs, b :: bs => if b then r :: applyMask rs bs else applyMask rs bs
  | _, _ => []

/-- The elementwise column mask `df[c] >= x`. -/
def geMask (rows : List Row) (c : String) (x : ℚ) : List Bool :=
  rows.map (fun r => decide (x ≤ getNum r c))

/-- The elementwise column mask `df[c] <= x`. -/
def leMask (rows : List Row) (c : String) (x : ℚ) : List Bool :=
  rows.map (fun r => decide (getNum r c ≤ x))

/-- `DefaultFilter.filter` from `dgi/filtering.py`. -/
def DefaultFilter.filter (df : DataFrame) (min_yield max_payout min_cagr : ℚ) :
    DataFrame :=
  { cols := df.cols
    rows := applyMask df.rows
      (List.zipWith and
        (List.zipWith and
          (geMask df.rows "dividend_yield" min_yield)
          (leMask df.rows "payout" max_payout))
        (geMask df.rows "dividend_cagr" min_cagr)) }

/-! ## Portfolio construction (`dgi/portfolio.py`) -/

/-- One row of the table `build` returns: columns `ticker`, `weight`,
`score`. -/
structure PortfolioEntry where
  ticker : Value
  weight : ℚ
  score : ℚ
deriving DecidableEq, Repr

/-- Insert a row into a list sorted descending by `score`. -/
def insertDescByScore (r : Row) : List Row → List Row
  | [] => [r]
  | x :: xs =>
    if getNum x "score" < getNum r "score" then r :: x :: xs
    else x :: insertDescByScore r xs

/-- `df.sort_values("score", ascending=False)`: a sort of the rows into
descending `score` order (the source's sort algorithm is pandas'
default, whose tie order is unspecified; any descending sort models
it). -/
def sortByScoreDesc : List Row → List Row
  | [] => []
  | r :: rs => insertDescByScore r (sortByScoreDesc rs)

/-- `EqualWeighting.compute_weights` from `dgi/portfolio.py`: every row
gets `1.0 / n` where `n = len(df)`, or `0.0` for an empty table. -/
def EqualWeighting.compute_weights (rows : List Row) : List ℚ :=
  rows.map (fun _ => if 0 < rows.length then (1 : ℚ) / rows.length else 0)

/-- `ScoreWeighting.compute_weights` from `dgi/portfolio.py`:
`score / total_score`, falling back to equal weights when the total is
exactly zero. -/
def ScoreWeighting.compute_weights (rows : List Row) : List ℚ :=
  let total := (rows.map (fun r => getNum r "score")).sum
  if total = 0 then
    rows.map (fun _ => if 0 < rows.length then (1 : ℚ) / rows.length else 0)
  else
    rows.map (fun r => getNum r "score" / total)

/-- `if not ticker_col: ticker_col = "ticker" if "ticker" in df.columns
else "symbol"` — the ticker column `build` settles on (`None` and the
empty string are both falsy in Python). -/
def resolveTickerCol (df : DataFrame) (ticker_col : Option String) : String :=
  match ticker_col with
  | some s =>
    if s.isEmpty then (if "ticker" ∈ df.cols then "ticker" else "symbol") else s
  | none => if "ticker" ∈ df.cols then "ticker" else "symbol"

/-- Project a selected row and its weight to the output columns
`[ticker_col, "weight", "score"]` (renaming the ticker column). -/
def toEntry (tc : String) (r : Row) (w : ℚ) : PortfolioEntry :=
  ⟨getVal r tc, w, getNum r "score"⟩

/-- `df.sort_values("score", ascending=False).head(top_n)`: the `top_n`
rows `build` selects. -/
def topSelection (df : DataFrame) (top_n : ℕ) : List Row :=
  (sortByScoreDesc df.rows).take top_n

/-- `build` from `dgi/portfolio.py`.  Checks, in source order: `top_n`
against the row count, the presence of the `score` column, the presence
of the resolved ticker column; then selects the `top_n` rows with the
highest scores, validates `weighting`, and applies the chosen weighting
strategy. -/
def build (df : DataFrame) (top_n : ℕ) (weighting : String)
    (ticker_col : Option String) : Except String (List PortfolioEntry) :=
  if df.rows.length < top_n then
    .error "top_n cannot be greater than number of stocks"
  else if "score" ∉ df.cols then
    .error "Missing 'score' column in DataFrame"
  else if resolveTickerCol df ticker_col ∉ df.cols then
    .error ("Missing ticker column: " ++ resolveTickerCol df ticker_col)
  else if weighting = "equal" then
    .ok (List.zipWith (toEntry (resolveTickerCol df ticker_col))
      (topSelection df top_n)
      (EqualWeighting.compute_weights (topSelection df top_n)))
  else if weighting = "score" then
    .ok (List.zipWith (toEntry (resolveTickerCol df ticker_col))
      (topSelection df top_n)
      (ScoreWeighting.compute_weights (topSelection df top_n)))
  else .error "weighting must be 'equal' or 'score'"

/-- The three-row table of the spec's worked portfolio example: scores
10, 20 and 30. -/
def exampleDf : DataFrame :=
  ⟨["ticker", "score"],
   [[("ticker", Value.str "A"), ("score", Value.num 10)],
    [("ticker", Value.str "B"), ("score", Value.num 20)],
    [("ticker", Value.str "C"), ("score", Value.num 30)]]⟩

/-! ## Batch row validation (`dgi/validation.py`)

`DgiRowValidator.validate_rows` runs the row-validation strategy over
each raw row, collecting the successfully validated records and, for
each failing row, an error message tagged `Row {i + 2}` (1-based index
plus one for the CSV header line).  The validation strategy is modelled
as a function into `Except String CompanyData`; the constructor sets
`self.required_columns = None`, so the missing-columns branch of the
loop is dead code and does not appear here.  If no row validates it
raises `DataValidationError` carrying all messages; otherwise it returns
the valid records, emitting one aggregated warning when any row was
skipped (warnings are modelled as a list of emitted messages). -/

/-- The per-row error tag: `f"Row {i + 2}: {e}"` for 0-based loop
index `i`. -/
def rowTag (i : ℕ) (e : String) : String :=
  "Row " ++ toString (i + 2) ++ ": " ++ e

/-- The accumulation loop of `validate_rows`, carried out from loop
index `i`: returns the validated records in input order, and the tagged
error messages in input order. -/
def validateLoop (validate : α → Except String CompanyData) :
    List α → ℕ → List CompanyData × List String
  | [], _ => ([], [])
  | r :: rs, i =>
    let rest := validateLoop validate rs (i + 1)
    match validate r with
    | .ok c => (c :: rest.1, rest.2)
    | .error e => (rest.1, rowTag i e :: rest.2)

/-- `DgiRowValidator.validate_rows` from `dgi/validation.py`.  The
result is `(valid records, emitted warnings)`, or the
`DataValidationError` message when no row validated. -/
def validate_rows (validate : α → Except String CompanyData) (rows : List α) :
    Except String (List CompanyData × List String) :=
  let res := validateLoop validate rows 0
  if res.1.isEmpty then
    .error ("Validation errors:\n" ++ String.intercalate "\n" res.2)
  else if res.2.isEmpty then .ok (res.1, [])
  else
    .ok (res.1, ["Some rows were invalid and skipped:\n" ++
      String.intercalate "\n" res.2])

/-- Specification-side description of the records `validate_rows`
keeps: the successfully validated records, in input order. -/
def keptRecords (validate : α → Except String CompanyData) (rows : List α) :
    List CompanyData :=
  rows.filterMap (fun r => (validate r).toOption)

/-- Specification-side description of the per-row diagnostics: for each
failing row, its error message tagged with the 1-based row index
accounting for a header line (`Row i + 2` at 0-based index `i`), in
input order. -/
def errMsgs (validate : α → Except String CompanyData) (rows : List α) :
    List String :=
  (List.enumFrom 0 rows).filterMap (fun p =>
    match validate p.2 with
    | .error e => some (rowTag p.1 e)
    | .ok _ => none)

/-! ## Screener projection (`dgi/screener.py`) -/

/-- The fixed, ordered column set of the tabular universe. -/
def expectedColumns : List String :=
  ["symbol", "name", "sector", "industry", "dividend_yield", "payout",
   "dividend_cagr", "fcf_yield"]

/-- The `mapped_dict` of `Screener.rows_to_dataframe`: one validated
record projected to the eight expected columns (alias names `payout` and
`dividend_cagr` for the stored `payout_ratio` / `dividend_growth_5y`). -/
def companyToRow (c : CompanyData) : Row :=
  [("symbol", .str c.symbol), ("name", .str c.name),
   ("sector", .str c.sector), ("industry", .str c.industry),
   ("dividend_yield", .num c.dividend_yield),
   ("payout", .num c.payout_ratio),
   ("dividend_cagr", .num c.dividend_growth_5y),
   ("fcf_yield", .num c.fcf_yield)]

/-- `Screener.rows_to_dataframe` from `dgi/screener.py`.  The pandas
frame built from the mapped dicts has exactly the eight expected columns
when the row list is non-empty, and no columns at all when it is empty
(`pd.DataFrame([])`); the source then rejects an empty frame or missing
expected columns and reorders to `expected_columns`. -/
def rows_to_dataframe (rows : List CompanyData) : Except String DataFrame :=
  let builtCols : List String := if rows.isEmpty then [] else expectedColumns
  if rows.isEmpty || expectedColumns.any (fun c => !(builtCols.contains c)) then
    .error ("Missing expected columns in validated data: " ++
      String.intercalate ", "
        (expectedColumns.filter (fun c => !(builtCols.contains c))) ++
      " or no valid rows found.")
  else
    .ok ⟨expectedColumns, rows.map companyToRow⟩

/-- `Screener.load_universe` from `dgi/screener.py`: fetch the validated
rows from the repository and project them; the repository is modelled by
the record list its `get_rows` returns. -/
def load_universe (repoRows : List CompanyData) : Except String DataFrame :=
  rows_to_dataframe repoRows

/-! ## Scoring a table (`Screener.add_scores`) -/

/-- Reconstruction `CompanyData(**row.to_dict())` inside
`Screener.add_scores.score_row`: look each pydantic field up under its
input name (the alias for the two aliased fields), coerce string cells
through float parsing (`parseNum` models Python's `float(str)`), and
check the field bounds.  Any failure is an exception caught by
`score_row`. -/
def reconstructCompany (parseNum : String → Option ℚ) (r : Row) :
    Except String CompanyData := do
  let getStr : String → Except String String := fun k =>
    match r.lookup k with
    | some (Value.str s) => .ok s
    | some (Value.num _) => .error ("Input should be a valid string: " ++ k)
    | none => .error ("Field required: " ++ k)
  let getQ : String → Except String ℚ := fun k =>
    match r.lookup k with
    | some (Value.num q) => .ok q
    | some (Value.str s) =>
      match parseNum s with
      | some q => .ok q
      | none => .error ("Value '" ++ s ++ "' is not a valid number")
    | none => .error ("Field required: " ++ k)
  let check : Bool → String → Except String Unit := fun b m =>
    if b then .ok () else .error m
  let symbol ← getStr "symbol"
  let name ← getStr "name"
  let sector ← getStr "sector"
  let industry ← getStr "industry"
  let dy ← getQ "dividend_yield"
  let pr ← getQ "payout"
  let dg ← getQ "dividend_cagr"
  let fy ← getQ "fcf_yield"
  check (1 ≤ symbol.length && symbol.length ≤ 10) "symbol: length bounds"
  check (1 ≤ name.length) "name: too short"
  check (1 ≤ sector.length) "sector: too short"
  check (1 ≤ industry.length) "industry: too short"
  check (0 ≤ dy && dy ≤ 100) "dividend_yield: out of bounds"
  check (0 ≤ pr && pr ≤ 200) "payout: out of bounds"
  check (-100 ≤ dg && dg ≤ 100) "dividend_cagr: out of bounds"
  check (-100 ≤ fy && fy ≤ 100) "fcf_yield: out of bounds"
  return ⟨symbol, name, sector, industry, dy, pr, dg, fy⟩

/-- `score_row` inside `Screener.add_scores`: reconstruct the record and
score it with the configured strategy (or `Screener.default_score` when
none is configured); any exception is logged and the row scores `0.0`. -/
def score_row (strategy : Option (CompanyData → ℚ))
    (parseNum : String → Option ℚ) (r : Row) : ℚ :=
  match reconstructCompany parseNum r with
  | .ok company =>
    match strategy with
    | some f => f company
    | none => Screener.default_score company
  | .error _ => 0

/-- `Screener.add_scores` from `dgi/screener.py`: copy the table, append
a `score` column — empty for an empty table, else `score_row` applied to
each row.  It is a total function: every failure inside `score_row` is
caught there. -/
def add_scores (strategy : Option (CompanyData → ℚ))
    (parseNum : String → Option ℚ) (df : DataFrame) : DataFrame :=
  if df.rows.isEmpty then ⟨df.cols ++ ["score"], df.rows⟩
  else
    ⟨df.cols ++ ["score"],
     df.rows.map (fun r =>
       r ++ [("score", Value.num (score_row strategy parseNum r))])⟩

/-! ## The reference scoring definition (spec §4.4) -/

/-- The default scoring algorithm as the spec words it, for comparison
with `DefaultScoring.score`: "normalize each of three inputs to [0,1] by
dividing by a fixed scale and clamping — dividend_growth_5y / 20,
fcf_yield / 20, payout_ratio / 100 — then compute
`(cagr_norm + fcf_norm - payout_norm) / 3`, and clamp the result to
[0,1]". -/
def referenceScore (c : CompanyData) : ℚ :=
  let clamp01 : ℚ → ℚ := fun x => min (max x 0) 1
  let cagr_norm := clamp01 (c.dividend_growth_5y / 20)
  let fcf_norm := clamp01 (c.fcf_yield / 20)
  let payout_norm := clamp01 (c.payout_ratio / 100)
  clamp01 ((cagr_norm + fcf_norm - payout_norm) / 3)

/-- The two orientations of clamping to `[0,1]` agree. -/
lemma max_min_clamp_comm (x : ℚ) : max 0 (min x 1) = min (max x 0) 1 := by
  rcases le_total x 0 with h | h
  · rw [min_eq_left (h.trans zero_le_one), max_eq_left h, max_eq_right h,
      min_eq_left zero_le_one]
  · rcases le_total x 1 with h1 | h1
    · rw [min_eq_left h1, max_eq_right h, max_eq_left h, min_eq_left h1]
    · rw [min_eq_right h1, max_eq_right zero_le_one, max_eq_left h,
        min_eq_right h1]

/-- C1 (amended).  `DefaultScoring.score` — the one-method
`ScoringStrategy` contract of `dgi/scoring.py` — returns a value in the
closed interval `[0, 1]` for every valid company record (indeed for
every record: the final clamp enforces the bounds). -/
theorem defaultScoring_score_mem_unit (c : CompanyData) (_h : c.IsValid) :
    0 ≤ DefaultScoring.score c ∧ DefaultScoring.score c ≤ 1 := by
  unfold DefaultScoring.score
  exact ⟨le_max_left 0 _, max_le zero_le_one (min_le_right _ 1)⟩

/-- Witness for C1: the bounds hold at a concrete valid record. -/
theorem defaultScoring_score_mem_unit_witness :
    (⟨"A", "A", "A", "A", 2, 50, 10, 10⟩ : CompanyData).IsValid ∧
    (0 ≤ DefaultScoring.score ⟨"A", "A", "A", "A", 2, 50, 10, 10⟩ ∧
      DefaultScoring.score ⟨"A", "A", "A", "A", 2, 50, 10, 10⟩ ≤ 1) :=
  ⟨by decide, defaultScoring_score_mem_unit _ (by decide)⟩

/-- Counterexample to C1 as stated: the module-level convenience `score`
function of `dgi/screener.py` (which is `Screener.default_score`, the
scoring used when no strategy is configured) returns `5.0` — outside
`[0, 1]` — on a valid record with a 5% dividend yield and zero growth,
payout and FCF yield. -/
theorem score_convenience_exceeds_one :
    (⟨"A", "A", "A", "A", 5, 0, 0, 0⟩ : CompanyData).IsValid ∧
    score ⟨"A", "A", "A", "A", 5, 0, 0, 0⟩ = 5 ∧
    ¬(score ⟨"A", "A", "A", "A", 5, 0, 0, 0⟩ ≤ 1) := by
  refine ⟨by decide, ?_, ?_⟩ <;>
    norm_num [score, Screener.default_score, max_def]

/-- C7.  The default scoring algorithm of `dgi/scoring.py` equals the
spec's reference definition (clamp `dividend_cagr/20`, `fcf_yield/20`
and `payout/100` to `[0,1]`, average the signed sum over 3, clamp to
`[0,1]`), and on the record with cagr 10, fcf_yield 10, payout 50 it
computes `(0.5 + 0.5 - 0.5) / 3 = 1/6`. -/
theorem defaultScoring_score_eq_reference (c : CompanyData) :
    DefaultScoring.score c = referenceScore c ∧
    DefaultScoring.score ⟨"A", "A", "A", "A", 2, 50, 10, 10⟩ = 1 / 6 := by
  constructor
  · unfold DefaultScoring.score referenceScore
    simp only
    exact max_min_clamp_comm _
  · norm_num [DefaultScoring.score, CompanyData.dividend_cagr,
      CompanyData.payout, max_def, min_def]

/-! ## Filtering claims (C4, C10) -/

lemma applyMask_map (rows : List Row) (p : Row → Bool) :
    applyMask rows (rows.map p) = rows.filter p := by
  induction rows with
  | nil => rfl
  | cons r rs ih => by_cases h : p r <;> simp [applyMask, List.filter_cons, h, ih]

lemma zipWith_and_map (p q : Row → Bool) (rows : List Row) :
    List.zipWith and (rows.map p) (rows.map q) =
      rows.map (fun r => p r && q r) := by
  induction rows with
  | nil => rfl
  | cons r rs ih => simp [ih]

/-- The rows `DefaultFilter.filter` keeps are exactly the rows passing
the three-way inclusive threshold predicate, in input order. -/
lemma default_filter_rows (df : DataFrame) (a b c : ℚ) :
    (DefaultFilter.filter df a b c).rows = df.rows.filter
      (fun r => decide (a ≤ getNum r "dividend_yield" ∧
        getNum r "payout" ≤ b ∧ c ≤ getNum r "dividend_cagr")) := by
  unfold DefaultFilter.filter geMask leMask
  simp only
  rw [zipWith_and_map, zipWith_and_map, applyMask_map]
  exact List.filter_congr (fun r _ => by
    simp [Bool.decide_and, Bool.and_assoc])

/-- C4.  The default filter returns exactly the rows satisfying
`dividend_yield >= min_yield AND payout <= max_payout AND
dividend_cagr >= min_cagr`, all three bounds inclusive: in particular a
row whose `dividend_yield` equals `min_yield` passes (given the other
two criteria), and a row whose `payout` equals `max_payout` passes
(given the other two criteria). -/
theorem default_filter_exact (df : DataFrame) (a b c : ℚ) :
    ((DefaultFilter.filter df a b c).rows = df.rows.filter
      (fun r => decide (a ≤ getNum r "dividend_yield" ∧
        getNum r "payout" ≤ b ∧ c ≤ getNum r "dividend_cagr"))) ∧
    (∀ r ∈ df.rows, getNum r "dividend_yield" = a →
      getNum r "payout" ≤ b → c ≤ getNum r "dividend_cagr" →
      r ∈ (DefaultFilter.filter df a b c).rows) ∧
    (∀ r ∈ df.rows, getNum r "payout" = b →
      a ≤ getNum r "dividend_yield" → c ≤ getNum r "dividend_cagr" →
      r ∈ (DefaultFilter.filter df a b c).rows) := by
  refine ⟨default_filter_rows df a b c, ?_, ?_⟩
  · intro r hr hy hp hc
    rw [default_filter_rows]
    exact List.mem_filter.2 ⟨hr, by simp [hy, hp, hc]⟩
  · intro r hr hp hy hc
    rw [default_filter_rows]
    exact List.mem_filter.2 ⟨hr, by simp [hy, hp, hc]⟩

/-- Witness for C4: on a concrete one-row table, the row with
`dividend_yield` exactly at `min_yield` (and `payout` exactly at
`max_payout`) is kept. -/
theorem default_filter_exact_witness :
    [("dividend_yield", Value.num 2), ("payout", Value.num 50),
      ("dividend_cagr", Value.num 7)] ∈
      (DefaultFilter.filter
        ⟨["dividend_yield", "payout", "dividend_cagr"],
         [[("dividend_yield", Value.num 2), ("payout", Value.num 50),
           ("dividend_cagr", Value.num 7)]]⟩ 2 50 5).rows :=
  (default_filter_exact _ 2 50 5).2.1 _ (by simp) (by decide) (by decide)
    (by decide)

/-- C10.  Filtering is monotonic: raising `min_yield`, lowering
`max_payout` or raising `min_cagr` (in any combination, in particular
one at a time) never increases the number of rows the default filter
returns. -/
theorem default_filter_monotone (df : DataFrame) (a b c a' b' c' : ℚ)
    (ha : a ≤ a') (hb : b' ≤ b) (hc : c ≤ c') :
    (DefaultFilter.filter df a' b' c').rows.length ≤
      (DefaultFilter.filter df a b c).rows.length := by
  rw [default_filter_rows, default_filter_rows]
  refine List.Sublist.length_le (List.monotone_filter_right _ ?_)
  intro r h
  simp only [decide_eq_true_eq] at h ⊢
  exact ⟨ha.trans h.1, h.2.1.trans hb, hc.trans h.2.2⟩

/-- Witness for C10 at a concrete table and a tightened `min_yield`. -/
theorem default_filter_monotone_witness :
    (1 : ℚ) ≤ 3 ∧ (50 : ℚ) ≤ 50 ∧ (5 : ℚ) ≤ 5 ∧
    (DefaultFilter.filter
        ⟨["dividend_yield", "payout", "dividend_cagr"],
         [[("dividend_yield", Value.num 2), ("payout", Value.num 40),
           ("dividend_cagr", Value.num 7)]]⟩ 3 50 5).rows.length ≤
      (DefaultFilter.filter
        ⟨["dividend_yield", "payout", "dividend_cagr"],
         [[("dividend_yield", Value.num 2), ("payout", Value.num 40),
           ("dividend_cagr", Value.num 7)]]⟩ 1 50 5).rows.length :=
  ⟨by norm_num, by norm_num, by norm_num,
    default_filter_monotone _ 1 50 5 3 50 5 (by norm_num) (by norm_num)
      (by norm_num)⟩

/-! ## Sorting lemmas for the portfolio claims -/

lemma insertDescByScore_perm (r : Row) (l : List Row) :
    List.Perm (insertDescByScore r l) (r :: l) := by
  induction l with
  | nil => exact List.Perm.refl _
  | cons x xs ih =>
    unfold insertDescByScore
    by_cases h : getNum x "score" < getNum r "score"
    · rw [if_pos h]
    · rw [if_neg h]
      exact (ih.cons x).trans (List.Perm.swap r x xs)

lemma sortByScoreDesc_perm (l : List Row) :
    List.Perm (sortByScoreDesc l) l := by
  induction l with
  | nil => exact List.Perm.refl _
  | cons r rs ih => exact (insertDescByScore_perm r _).trans (ih.cons r)

lemma sortByScoreDesc_length (l : List Row) :
    (sortByScoreDesc l).length = l.length :=
  (sortByScoreDesc_perm l).length_eq

lemma insertDescByScore_pairwise {l : List Row} (r : Row)
    (h : List.Pairwise (fun a b => getNum b "score" ≤ getNum a "score") l) :
    List.Pairwise (fun a b => getNum b "score" ≤ getNum a "score")
      (insertDescByScore r l) := by
  induction l with
  | nil => simp [insertDescByScore]
  | cons x xs ih =>
    rw [List.pairwise_cons] at h
    obtain ⟨hx, hxs⟩ := h
    unfold insertDescByScore
    by_cases hcmp : getNum x "score" < getNum r "score"
    · rw [if_pos hcmp]
      refine List.Pairwise.cons ?_ (List.Pairwise.cons hx hxs)
      intro y hy
      rcases List.mem_cons.1 hy with rfl | hy'
      · exact hcmp.le
      · exact (hx y hy').trans hcmp.le
    · rw [if_neg hcmp]
      push_neg at hcmp
      refine List.Pairwise.cons ?_ (ih hxs)
      intro y hy
      rcases List.mem_cons.1 ((insertDescByScore_perm r xs).mem_iff.1 hy)
        with rfl | hy'
      · exact hcmp
      · exact hx y hy'

lemma sortByScoreDesc_pairwise (l : List Row) :
    List.Pairwise (fun a b => getNum b "score" ≤ getNum a "score")
      (sortByScoreDesc l) := by
  induction l with
  | nil => simp [sortByScoreDesc]
  | cons r rs ih => exact insertDescByScore_pairwise r ih

lemma zipWith_toEntry_map (tc : String) (f : Row → ℚ) (l : List Row) :
    List.zipWith (toEntry tc) l (l.map f) =
      l.map (fun r => toEntry tc r (f r)) := by
  induction l with
  | nil => rfl
  | cons x xs ih => simp [ih]

lemma map_weight_toEntry (tc : String) (f : Row → ℚ) (l : List Row) :
    ((l.map (fun r => toEntry tc r (f r))).map PortfolioEntry.weight) =
      l.map f := by
  simp [toEntry]

lemma sum_map_const_q (l : List Row) (c : ℚ) :
    ((l.map (fun _ => c)).sum) = l.length * c := by
  induction l with
  | nil => simp
  | cons x xs ih => simp [ih]; ring

lemma sum_map_div_q (l : List Row) (f : Row → ℚ) (t : ℚ) :
    ((l.map (fun r => f r / t)).sum) = (l.map f).sum / t := by
  induction l with
  | nil => simp
  | cons x xs ih => simp [ih, add_div]

lemma topSelection_length (df : DataFrame) (top_n : ℕ)
    (h : top_n ≤ df.rows.length) : (topSelection df top_n).length = top_n := by
  unfold topSelection
  rw [List.length_take, sortByScoreDesc_length]
  exact min_eq_left h

/-! ## Portfolio claims (C2, C5, C6) -/

/-- C2.  For every table with a `score` column and a resolvable ticker
column, and every `top_n` between 1 and the row count, `build` succeeds
and the returned weights sum to 1 within `1e-8` for both weighting
modes; in `equal` mode every selected row's weight is exactly
`1 / top_n`. -/
theorem build_weights_sum_one (df : DataFrame) (top_n : ℕ) (weighting : String)
    (ticker_col : Option String) (h1 : 1 ≤ top_n)
    (h2 : top_n ≤ df.rows.length) (h3 : "score" ∈ df.cols)
    (h4 : resolveTickerCol df ticker_col ∈ df.cols)
    (h5 : weighting = "equal" ∨ weighting = "score") :
    ∃ entries : List PortfolioEntry,
      build df top_n weighting ticker_col = .ok entries ∧
      |(entries.map PortfolioEntry.weight).sum - 1| ≤ 1 / 100000000 ∧
      (weighting = "equal" → ∀ e ∈ entries, e.weight = 1 / top_n) := by
  have hlen : (topSelection df top_n).length = top_n := topSelection_length df _ h2
  have hpos : 0 < (topSelection df top_n).length := by rw [hlen]; exact h1
  have htopn : ((top_n : ℚ)) ≠ 0 := by
    exact_mod_cast Nat.pos_iff_ne_zero.1 h1
  have hsum_eq : (((topSelection df top_n).map
      (fun _ => (1 : ℚ) / top_n)).sum) = 1 := by
    rw [sum_map_const_q, hlen, mul_one_div, div_self htopn]
  rcases h5 with h5 | h5 <;> subst h5
  · refine ⟨List.zipWith (toEntry (resolveTickerCol df ticker_col))
      (topSelection df top_n)
      (EqualWeighting.compute_weights (topSelection df top_n)), ?_, ?_, ?_⟩
    · unfold build
      rw [if_neg (not_lt.2 h2), if_neg (not_not_intro h3),
        if_neg (not_not_intro h4), if_pos rfl]
    · have : EqualWeighting.compute_weights (topSelection df top_n) =
          (topSelection df top_n).map (fun _ => (1 : ℚ) / top_n) := by
        unfold EqualWeighting.compute_weights
        rw [if_pos hpos, hlen]
      rw [this, zipWith_toEntry_map, map_weight_toEntry, hsum_eq]
      norm_num
    · intro _ e he
      have : EqualWeighting.compute_weights (topSelection df top_n) =
          (topSelection df top_n).map (fun _ => (1 : ℚ) / top_n) := by
        unfold EqualWeighting.compute_weights
        rw [if_pos hpos, hlen]
      rw [this, zipWith_toEntry_map] at he
      obtain ⟨r, _, rfl⟩ := List.mem_map.1 he
      rfl
  · refine ⟨List.zipWith (toEntry (resolveTickerCol df ticker_col))
      (topSelection df top_n)
      (ScoreWeighting.compute_weights (topSelection df top_n)), ?_, ?_, ?_⟩
    · unfold build
      rw [if_neg (not_lt.2 h2), if_neg (not_not_intro h3),
        if_neg (not_not_intro h4), if_neg (by decide), if_pos rfl]
    · unfold ScoreWeighting.compute_weights
      by_cases ht :
          (((topSelection df top_n).map (fun r => getNum r "score")).sum) = 0
      · rw [if_pos ht]
        have : ((topSelection df top_n).map
            (fun _ => if 0 < (topSelection df top_n).length
              then (1 : ℚ) / (topSelection df top_n).length else 0)) =
            (topSelection df top_n).map (fun _ => (1 : ℚ) / top_n) := by
          rw [if_pos hpos, hlen]
        rw [this, zipWith_toEntry_map, map_weight_toEntry, hsum_eq]
        norm_num
      · rw [if_neg ht]
        rw [zipWith_toEntry_map, map_weight_toEntry, sum_map_div_q,
          div_self ht]
        norm_num
    · intro h
      exact absurd h (by decide)

/-- Witness for C2: a concrete three-row build with score weighting
returns weights summing to 1 within the tolerance. -/
theorem build_weights_sum_one_witness :
    1 ≤ 2 ∧ 2 ≤ exampleDf.rows.length ∧ "score" ∈ exampleDf.cols ∧
    resolveTickerCol exampleDf none ∈ exampleDf.cols ∧
    ∃ entries : List PortfolioEntry,
      build exampleDf 2 "score" none = .ok entries ∧
      |(entries.map PortfolioEntry.weight).sum - 1| ≤ 1 / 100000000 ∧
      ("score" = "equal" → ∀ e ∈ entries, e.weight = 1 / 2) := by
  refine ⟨by norm_num, by decide, by decide, by decide, ?_⟩
  have h := build_weights_sum_one exampleDf 2 "score" none (by norm_num)
    (by decide) (by decide) (by decide) (Or.inr rfl)
  obtain ⟨entries, h1, h2, _⟩ := h
  exact ⟨entries, h1, h2, fun h => absurd h (by decide)⟩

/-- The resolved default ticker column is missing exactly when neither a
`ticker` nor a `symbol` column is present. -/
lemma resolveTickerCol_none_not_mem (df : DataFrame) :
    (resolveTickerCol df none ∉ df.cols) ↔
      ("ticker" ∉ df.cols ∧ "symbol" ∉ df.cols) := by
  unfold resolveTickerCol
  by_cases h : "ticker" ∈ df.cols
  · simp [h]
  · simp [h]

/-- C5.  With the default ticker-column resolution, `build` raises
`ValueError` exactly when `top_n` exceeds the row count, or the `score`
column is absent, or neither a `ticker` nor a `symbol` column is
present, or the weighting is neither `equal` nor `score`; on inputs
satisfying all the preconditions it returns without raising. -/
theorem build_error_iff (df : DataFrame) (top_n : ℕ) (weighting : String) :
    (∃ e, build df top_n weighting none = .error e) ↔
      (df.rows.length < top_n ∨ "score" ∉ df.cols ∨
       ("ticker" ∉ df.cols ∧ "symbol" ∉ df.cols) ∨
       (weighting ≠ "equal" ∧ weighting ≠ "score")) := by
  by_cases c1 : df.rows.length < top_n
  · unfold build
    rw [if_pos c1]
    exact iff_of_true ⟨_, rfl⟩ (Or.inl c1)
  · by_cases c2 : "score" ∉ df.cols
    · unfold build
      rw [if_neg c1, if_pos c2]
      exact iff_of_true ⟨_, rfl⟩ (Or.inr (Or.inl c2))
    · by_cases c3 : resolveTickerCol df none ∉ df.cols
      · unfold build
        rw [if_neg c1, if_neg c2, if_pos c3]
        exact iff_of_true ⟨_, rfl⟩
          (Or.inr (Or.inr (Or.inl ((resolveTickerCol_none_not_mem df).1 c3))))
      · by_cases c4 : weighting = "equal"
        · unfold build
          rw [if_neg c1, if_neg c2, if_neg c3, if_pos c4]
          refine iff_of_false (by rintro ⟨e, he⟩; cases he) ?_
          rintro (h | h | h | h)
          · exact c1 h
          · exact c2 h
          · exact c3 ((resolveTickerCol_none_not_mem df).2 h)
          · exact h.1 c4
        · by_cases c5 : weighting = "score"
          · unfold build
            rw [if_neg c1, if_neg c2, if_neg c3, if_neg c4, if_pos c5]
            refine iff_of_false (by rintro ⟨e, he⟩; cases he) ?_
            rintro (h | h | h | h)
            · exact c1 h
            · exact c2 h
            · exact c3 ((resolveTickerCol_none_not_mem df).2 h)
            · exact h.2 c5
          · unfold build
            rw [if_neg c1, if_neg c2, if_neg c3, if_neg c4, if_neg c5]
            exact iff_of_true ⟨_, rfl⟩ (Or.inr (Or.inr (Or.inr ⟨c4, c5⟩)))

lemma pairwise_take_drop {R : Row → Row → Prop} (n : ℕ) {l : List Row}
    (h : List.Pairwise R l) :
    ∀ a ∈ l.take n, ∀ b ∈ l.drop n, R a b := by
  have h' : List.Pairwise R (l.take n ++ l.drop n) := by
    rw [List.take_append_drop]; exact h
  exact (List.pairwise_append.1 h').2.2

/-- C6.  With `score` weighting, `build` selects `top_n` rows forming a
descending-by-score prefix of a sorted permutation of the table (so
every selected score is at least every unselected score) and weights
each selected row by `score / total selected score`, falling back to
`1 / top_n` when that total is exactly zero; and on the spec's worked
example (scores 10, 20, 30, `top_n = 2`) it returns the rows with
scores 30 and 20 and weights `0.6` and `0.4`. -/
theorem build_score_weighting_selects_top (df : DataFrame) (top_n : ℕ)
    (ticker_col : Option String) (h2 : top_n ≤ df.rows.length)
    (h3 : "score" ∈ df.cols)
    (h4 : resolveTickerCol df ticker_col ∈ df.cols) :
    (∃ selected dropped : List Row,
      List.Perm df.rows (selected ++ dropped) ∧
      selected.length = top_n ∧
      List.Pairwise (fun a b => getNum b "score" ≤ getNum a "score")
        selected ∧
      (∀ r ∈ selected, ∀ r' ∈ dropped,
        getNum r' "score" ≤ getNum r "score") ∧
      build df top_n "score" ticker_col = .ok (selected.map (fun r =>
        toEntry (resolveTickerCol df ticker_col) r
          (if ((selected.map (fun x => getNum x "score")).sum) = 0
            then (1 : ℚ) / top_n
            else getNum r "score" /
              ((selected.map (fun x => getNum x "score")).sum))))) ∧
    build exampleDf 2 "score" none =
      .ok [⟨Value.str "C", 3/5, 30⟩, ⟨Value.str "B", 2/5, 20⟩] := by
  constructor
  · refine ⟨topSelection df top_n, (sortByScoreDesc df.rows).drop top_n,
      ?_, topSelection_length df _ h2, ?_, ?_, ?_⟩
    · unfold topSelection
      rw [List.take_append_drop]
      exact (sortByScoreDesc_perm df.rows).symm
    · exact List.Pairwise.sublist (List.take_sublist _ _)
        (sortByScoreDesc_pairwise df.rows)
    · exact pairwise_take_drop top_n (sortByScoreDesc_pairwise df.rows)
    · unfold build
      rw [if_neg (not_lt.2 h2), if_neg (not_not_intro h3),
        if_neg (not_not_intro h4), if_neg (by decide), if_pos rfl]
      congr 1
      unfold ScoreWeighting.compute_weights
      by_cases ht :
          (((topSelection df top_n).map (fun r => getNum r "score")).sum) = 0
      · rw [if_pos ht, zipWith_toEntry_map]
        refine List.map_congr_left ?_
        intro r hr
        rw [if_pos (List.length_pos_of_mem hr),
          topSelection_length df _ h2, if_pos ht]
      · rw [if_neg ht, zipWith_toEntry_map]
        refine List.map_congr_left ?_
        intro r hr
        rw [if_neg ht]
  · have hsort : topSelection exampleDf 2 =
        [[("ticker", Value.str "C"), ("score", Value.num 30)],
         [("ticker", Value.str "B"), ("score", Value.num 20)]] := by decide
    have g1 : getNum [("ticker", Value.str "C"), ("score", Value.num 30)]
        "score" = 30 := by decide
    have g2 : getNum [("ticker", Value.str "B"), ("score", Value.num 20)]
        "score" = 20 := by decide
    have hw : ScoreWeighting.compute_weights (topSelection exampleDf 2) =
        [3/5, 2/5] := by
      rw [hsort]
      unfold ScoreWeighting.compute_weights
      rw [List.map_cons, List.map_cons, List.map_nil, g1, g2]
      norm_num
      rw [g1, g2]
      norm_num
    unfold build
    rw [if_neg (by decide), if_neg (by decide), if_neg (by decide),
      if_neg (by decide), if_pos rfl, hw, hsort]
    rfl

/-- Witness for C6: the worked three-row example, via the theorem. -/
theorem build_score_weighting_selects_top_witness :
    2 ≤ exampleDf.rows.length ∧
    build exampleDf 2 "score" none =
      .ok [⟨Value.str "C", 3/5, 30⟩, ⟨Value.str "B", 2/5, 20⟩] :=
  ⟨by decide, (build_score_weighting_selects_top exampleDf 2 none (by decide)
      (by decide) (by decide)).2⟩

/-! ## Batch validation claim (C3) -/

lemma validateLoop_eq (validate : α → Except String CompanyData)
    (rows : List α) (i : ℕ) :
    validateLoop validate rows i =
      (rows.filterMap (fun r => (validate r).toOption),
       (List.enumFrom i rows).filterMap (fun p =>
         match validate p.2 with
         | .error e => some (rowTag p.1 e)
         | .ok _ => none)) := by
  induction rows generalizing i with
  | nil => rfl
  | cons r rs ih =>
    unfold validateLoop
    rw [ih]
    cases h : validate r with
    | ok c => simp [h, Except.toOption]
    | error e => simp [h, Except.toOption]

lemma kept_err_length (validate : α → Except String CompanyData)
    (rows : List α) (i : ℕ) :
    (rows.filterMap (fun r => (validate r).toOption)).length +
      ((List.enumFrom i rows).filterMap (fun p =>
        match validate p.2 with
        | .error e => some (rowTag p.1 e)
        | .ok _ => none)).length = rows.length := by
  induction rows generalizing i with
  | nil => rfl
  | cons r rs ih =>
    cases h : validate r with
    | ok c =>
      simp only [List.filterMap_cons, List.enumFrom_cons, h, Except.toOption,
        List.length_cons]
      have := ih (i + 1)
      simp only [Except.toOption] at this
      omega
    | error e =>
      simp only [List.filterMap_cons, List.enumFrom_cons, h, Except.toOption,
        List.length_cons]
      have := ih (i + 1)
      simp only [Except.toOption] at this
      omega

/-- C3.  `validate_rows` returns exactly the successfully validated
records, in input order; when at least one row fails it emits exactly
one aggregated warning whose text lists every skipped row's tagged
message; when no row validates it raises `DataValidationError` whose
message is the concatenation of all per-row messages, each tagged
`Row i + 2` for 0-based input index `i` (1-based, plus one for the CSV
header).  The kept records and the diagnostics partition the input:
`K + (N - K) = N`. -/
theorem validate_rows_characterization
    (validate : α → Except String CompanyData) (rows : List α) :
    (validate_rows validate rows =
      if keptRecords validate rows = [] then
        .error ("Validation errors:\n" ++
          String.intercalate "\n" (errMsgs validate rows))
      else .ok (keptRecords validate rows,
        if errMsgs validate rows = [] then [] else
          ["Some rows were invalid and skipped:\n" ++
            String.intercalate "\n" (errMsgs validate rows)])) ∧
    (keptRecords validate rows).length + (errMsgs validate rows).length =
      rows.length := by
  refine ⟨?_, kept_err_length validate rows 0⟩
  unfold validate_rows keptRecords errMsgs
  rw [validateLoop_eq]
  by_cases hk : rows.filterMap (fun r => (validate r).toOption) = []
  · simp [hk]
  · by_cases he : ((List.enumFrom 0 rows).filterMap (fun p =>
        match validate p.2 with
        | .error e => some (rowTag p.1 e)
        | .ok _ => none)) = []
    · simp [hk, he]
    · simp [hk, he]

/-! ## Screener projection claim (C8) -/

lemma expectedColumns_all_present :
    (expectedColumns.any (fun c => !(expectedColumns.contains c))) = false := by
  decide

/-- Counterexample to C8 as stated: the empty repository vacuously has
all of its rows validating, yet `load_universe` raises `ValueError`
instead of returning a projected table. -/
theorem load_universe_empty_all_valid_errors :
    load_universe ([] : List CompanyData) =
      .error ("Missing expected columns in validated data: " ++
        String.intercalate ", " expectedColumns ++
        " or no valid rows found.") := by
  rfl

/-- C8 (amended).  `load_universe` raises `ValueError` exactly when the
projected table is empty (the only situation in which an expected column
can be absent, since a non-empty projection always carries all eight
mapped columns); for every repository yielding at least one validated
record it returns the table with exactly the fixed, ordered column set
`{symbol, name, sector, industry, dividend_yield, payout,
dividend_cagr, fcf_yield}`. -/
theorem load_universe_characterization (rows : List CompanyData) :
    ((∃ e, load_universe rows = .error e) ↔ rows = []) ∧
    (rows ≠ [] →
      load_universe rows = .ok ⟨expectedColumns, rows.map companyToRow⟩) := by
  by_cases h : rows = []
  · subst h
    refine ⟨iff_of_true ⟨_, rfl⟩ rfl, fun hne => absurd rfl hne⟩
  · have hb : rows.isEmpty = false := by
      cases rows with
      | nil => exact absurd rfl h
      | cons x xs => rfl
    constructor
    · refine iff_of_false ?_ h
      simp [load_universe, rows_to_dataframe, hb, expectedColumns_all_present]
    · intro _
      simp [load_universe, rows_to_dataframe, hb, expectedColumns_all_present]

/-- Witness for C8: a one-record repository loads into the
eight-column table. -/
theorem load_universe_characterization_witness :
    ([⟨"A", "A", "A", "A", 2, 50, 10, 10⟩] : List CompanyData) ≠ [] ∧
    load_universe [⟨"A", "A", "A", "A", 2, 50, 10, 10⟩] =
      .ok ⟨expectedColumns, [companyToRow ⟨"A", "A", "A", "A", 2, 50, 10, 10⟩]⟩ :=
  ⟨by decide,
    (load_universe_characterization [⟨"A", "A", "A", "A", 2, 50, 10, 10⟩]).2
      (by decide)⟩

/-! ## Table-scoring claim (C9) -/

/-- C9.  `add_scores` is a total function on tables (it never raises):
it returns a fresh table whose columns are the input columns with
`score` appended and whose rows are the input rows each extended with
the computed score cell — so the input rows are recoverable unchanged
and the input table is not mutated.  A row whose record reconstruction
fails scores `0.0`; a row whose reconstruction succeeds receives the
configured strategy's score (the default scoring when none is
configured).  An empty table stays empty, with the `score` column still
appended. -/
theorem add_scores_never_raises (strategy : Option (CompanyData → ℚ))
    (parseNum : String → Option ℚ) (df : DataFrame) :
    ((add_scores strategy parseNum df).cols = df.cols ++ ["score"]) ∧
    ((add_scores strategy parseNum df).rows =
      df.rows.map (fun r =>
        r ++ [("score", Value.num (score_row strategy parseNum r))])) ∧
    ((add_scores strategy parseNum df).rows.length = df.rows.length) ∧
    (∀ r ∈ df.rows, ∀ e, reconstructCompany parseNum r = .error e →
      score_row strategy parseNum r = 0) ∧
    (∀ r ∈ df.rows, ∀ c, reconstructCompany parseNum r = .ok c →
      score_row strategy parseNum r = (match strategy with
        | some f => f c
        | none => Screener.default_score c)) ∧
    (df.rows = [] → (add_scores strategy parseNum df).rows = []) := by
  have hrows : (add_scores strategy parseNum df).rows =
      df.rows.map (fun r =>
        r ++ [("score", Value.num (score_row strategy parseNum r))]) := by
    unfold add_scores
    by_cases h : df.rows.isEmpty
    · rw [if_pos h, List.isEmpty_iff.1 h]
      rfl
    · rw [if_neg h]
  refine ⟨?_, hrows, ?_, ?_, ?_, ?_⟩
  · unfold add_scores
    by_cases h : df.rows.isEmpty
    · rw [if_pos h]
    · rw [if_neg h]
  · rw [hrows, List.length_map]
  · intro r _ e he
    unfold score_row
    rw [he]
  · intro r _ c hc
    unfold score_row
    rw [hc]
  · intro h
    rw [hrows, h]
    rfl

/-- Witness for C9: a row missing every field but `symbol` fails
reconstruction and is scored `0.0`. -/
theorem add_scores_never_raises_witness :
    [("symbol", Value.str "A")] ∈
      (⟨["symbol"], [[("symbol", Value.str "A")]]⟩ : DataFrame).rows ∧
    score_row none (fun _ => none) [("symbol", Value.str "A")] = 0 :=
  ⟨by decide,
    (add_scores_never_raises none (fun _ => none)
        ⟨["symbol"], [[("symbol", Value.str "A")]]⟩).2.2.2.1
      _ (by decide) "Field required: name" rfl⟩

end DGI
